import Mathlib

/-!
Verification development for the Medkit UI component library's two logic
modules: the vitals engine (`src/utils/vitals`, given as `src/unnamed/part_000`)
and the tabular data engine of the DataTable component
(`src/unnamed/part_003`), plus the zero-as-unset handling of the
VitalSignsInput component.

Modelling conventions:
- JavaScript numbers are modelled as rationals (`ℚ`); `NaN` is modelled by a
  dedicated constructor of `JsNumber` where the code tests for it.
- `Number(x.toFixed(1))` is modelled as rounding to one decimal place with
  round-half-up (`round1`), the idealisation of JS decimal rounding.
- A JS template string such as
  `` `${field} must be between ${range.min} and ${range.max} ${range.unit}` ``
  is modelled as a structure (`ErrMessage`) carrying the interpolated holes,
  since the property of interest is which data the message carries.
- `undefined`/`null` become `Option.none`; `unit?: string` becomes
  `Option String`.
-/

/-- One entry of `VITAL_RANGES`: absolute bounds, optional normal bounds
(absent for weight/height), and a display unit. -/
structure RangeSpec where
  min : ℚ
  max : ℚ
  normal : Option (ℚ × ℚ)
  unit : String
  deriving DecidableEq

/-- The entries of the `VITAL_RANGES` object literal of `src/utils/vitals`,
in source order. Decimal literals are written as explicit fractions
(97.0 = 97, 99.5 = 199/2, 32.2 = 161/5, 43.3 = 433/10, 36.1 = 361/10,
37.5 = 75/2, 0.5 = 1/2). -/
def VITAL_RANGES_entries : List (String × RangeSpec) :=
  [("bloodPressureSystolic", ⟨70, 200, some (90, 140), "mmHg"⟩),
   ("bloodPressureDiastolic", ⟨40, 130, some (60, 90), "mmHg"⟩),
   ("heartRate", ⟨30, 250, some (60, 100), "bpm"⟩),
   ("temperatureF", ⟨90, 110, some (97, 199/2), "°F"⟩),
   ("temperatureC", ⟨161/5, 433/10, some (361/10, 75/2), "°C"⟩),
   ("respiratoryRate", ⟨8, 40, some (12, 20), "breaths/min"⟩),
   ("oxygenSaturation", ⟨70, 100, some (95, 100), "%"⟩),
   ("weightLb", ⟨1, 1000, none, "lb"⟩),
   ("weightKg", ⟨1/2, 450, none, "kg"⟩),
   ("heightIn", ⟨10, 108, none, "in"⟩),
   ("heightCm", ⟨25, 275, none, "cm"⟩),
   ("painLevel", ⟨0, 10, some (0, 3), ""⟩)]

/-- The `VITAL_RANGES` object as a lookup: property access by range key
(`none` for unrecognized keys). -/
def VITAL_RANGES (k : String) : Option RangeSpec :=
  (VITAL_RANGES_entries.find? fun p => p.1 == k).map fun p => p.2

/-- `Number(x.toFixed(1))`: round to one decimal place, half up. -/
def round1 (x : ℚ) : ℚ := (round (10 * x) : ℚ) / 10

/-- The `from` discriminator of `convertTemperature`. -/
inductive TempUnit where
  | F
  | C
  deriving DecidableEq

/-- `convertTemperature` of `src/utils/vitals`. -/
def convertTemperature (value : ℚ) (fr : TempUnit) : ℚ :=
  match fr with
  | .F => round1 ((value - 32) * (5 / 9))
  | .C => round1 (value * (9 / 5) + 32)

/-- `calculateBMI` of `src/utils/vitals`: `null` for non-positive inputs,
otherwise weight / (heightM)² rounded to one decimal. -/
def calculateBMI (weightKg heightCm : ℚ) : Option ℚ :=
  if weightKg ≤ 0 ∨ heightCm ≤ 0 then none
  else
    let heightM := heightCm / 100
    some (round1 (weightKg / (heightM * heightM)))

/-- `getBMICategory` of `src/utils/vitals`. -/
def getBMICategory (bmi : ℚ) : String :=
  if bmi < 18.5 then "Underweight"
  else if bmi < 25 then "Normal"
  else if bmi < 30 then "Overweight"
  else "Obese"

/-- The range-key resolution shared verbatim by `isValueNormal` and
`validateVitalValue`: temperature/weight/height get a unit-qualified key,
all other fields are used as-is. -/
def resolveRangeKey (field : String) (unit : Option String) : String :=
  if field = "temperature" then (if unit = some "C" then "temperatureC" else "temperatureF")
  else if field = "weight" then (if unit = some "kg" then "weightKg" else "weightLb")
  else if field = "height" then (if unit = some "cm" then "heightCm" else "heightIn")
  else field

/-- Result type of `isValueNormal`. -/
inductive VitalStatus where
  | normal
  | low
  | high
  | unknown
  deriving DecidableEq

/-- `isValueNormal` of `src/utils/vitals`. -/
def isValueNormal (field : String) (value : ℚ) (unit : Option String) : VitalStatus :=
  match VITAL_RANGES (resolveRangeKey field unit) with
  | none => .unknown
  | some range =>
    match range.normal with
    | none => .unknown
    | some (normalMin, normalMax) =>
      if value < normalMin then .low
      else if value > normalMax then .high
      else .normal

/-- A JS number as it reaches `validateVitalValue`: either `NaN` or a
numeric value. -/
inductive JsNumber where
  | nan
  | num (q : ℚ)
  deriving DecidableEq

/-- The interpolated holes of the template string
`` `${field} must be between ${range.min} and ${range.max} ${range.unit}` ``. -/
structure ErrMessage where
  field : String
  lo : ℚ
  hi : ℚ
  unit : String
  deriving DecidableEq

/-- The `ValidationError` interface of `src/utils/vitals`. -/
structure ValidationError where
  field : String
  message : ErrMessage
  deriving DecidableEq

/-- `validateVitalValue` of `src/utils/vitals`. -/
def validateVitalValue (field : String) (value : Option JsNumber) (unit : Option String) :
    Option ValidationError :=
  match value with
  | none => none
  | some .nan => none
  | some (.num v) =>
    match VITAL_RANGES (resolveRangeKey field unit) with
    | none => none
    | some range =>
      if v < range.min ∨ v > range.max then
        some ⟨field, ⟨field, range.min, range.max, range.unit⟩⟩
      else none

/-! ## VitalSignsInput component (`src/components/VitalSignsInput/VitalSignsInput.tsx`) -/

/-- The nine validated fields of the `VitalSigns` record. -/
inductive VitalField where
  | bloodPressureSystolic
  | bloodPressureDiastolic
  | heartRate
  | temperature
  | respiratoryRate
  | oxygenSaturation
  | weight
  | height
  | painLevel
  deriving DecidableEq, Fintype

/-- The `VitalSigns` state of the component: numeric fields plus unit selectors. -/
structure VitalSigns where
  bloodPressureSystolic : ℚ
  bloodPressureDiastolic : ℚ
  heartRate : ℚ
  temperature : ℚ
  temperatureUnit : String
  respiratoryRate : ℚ
  oxygenSaturation : ℚ
  weight : ℚ
  weightUnit : String
  height : ℚ
  heightUnit : String
  painLevel : ℚ

/-- `DEFAULT_VITALS` of the component: all values zeroed, default units. -/
def DEFAULT_VITALS : VitalSigns :=
  ⟨0, 0, 0, 0, "F", 0, 0, 0, "lb", 0, "in", 0⟩

/-- The string name under which a field is validated/reported. -/
def vitalFieldName : VitalField → String
  | .bloodPressureSystolic => "bloodPressureSystolic"
  | .bloodPressureDiastolic => "bloodPressureDiastolic"
  | .heartRate => "heartRate"
  | .temperature => "temperature"
  | .respiratoryRate => "respiratoryRate"
  | .oxygenSaturation => "oxygenSaturation"
  | .weight => "weight"
  | .height => "height"
  | .painLevel => "painLevel"

/-- The stored numeric value of a field. -/
def vitalValue (v : VitalSigns) : VitalField → ℚ
  | .bloodPressureSystolic => v.bloodPressureSystolic
  | .bloodPressureDiastolic => v.bloodPressureDiastolic
  | .heartRate => v.heartRate
  | .temperature => v.temperature
  | .respiratoryRate => v.respiratoryRate
  | .oxygenSaturation => v.oxygenSaturation
  | .weight => v.weight
  | .height => v.height
  | .painLevel => v.painLevel

/-- The unit passed alongside a field in the validation effect and at the
abnormal-indicator call sites (only temperature/weight/height carry one). -/
def vitalUnit (v : VitalSigns) : VitalField → Option String
  | .temperature => some v.temperatureUnit
  | .weight => some v.weightUnit
  | .height => some v.heightUnit
  | _ => none

/-- The `fieldsToValidate` list of the validation effect, in source order. -/
def fieldsToValidate : List VitalField :=
  [.bloodPressureSystolic, .bloodPressureDiastolic, .heartRate, .temperature,
   .respiratoryRate, .oxygenSaturation, .weight, .height, .painLevel]

/-- The validation effect of `VitalSignsInput`: walk `fieldsToValidate`,
skip values equal to zero (`if (value === 0) continue`), collect the
non-`null` results of `validateVitalValue`. -/
def runValidation (v : VitalSigns) : List ValidationError :=
  fieldsToValidate.filterMap fun f =>
    if vitalValue v f = 0 then none
    else validateVitalValue (vitalFieldName f) (some (.num (vitalValue v f))) (vitalUnit v f)

/-- `getAbnormalIndicator` of `VitalSignsInput`: `null` for a zero (falsy)
value, otherwise a Low/High badge according to `isValueNormal`. -/
def getAbnormalIndicator (v : VitalSigns) (f : VitalField) : Option VitalStatus :=
  if vitalValue v f = 0 then none
  else
    match isValueNormal (vitalFieldName f) (vitalValue v f) (vitalUnit v f) with
    | .low => some .low
    | .high => some .high
    | _ => none

/-! ## DataTable tabular engine (`src/unnamed/part_003`) -/

/-- `ROW_HEIGHT` constant of the DataTable. -/
def ROW_HEIGHT : ℚ := 41

/-- The virtualization window produced by the `virtualState` memo. -/
structure VirtualWindow where
  totalHeight : ℚ
  startIndex : ℤ
  endIndex : ℤ
  offsetY : ℚ
  deriving DecidableEq

/-- Body of the `virtualState` `useMemo` (the virtualizing branch): the
window recomputed from the data length, the scroll offset and the
container (viewport) height. -/
def virtualState (rowCount : ℕ) (scrollTop containerHeight : ℚ) : VirtualWindow :=
  let totalHeight : ℚ := rowCount * ROW_HEIGHT
  let startIndex : ℤ := max 0 (⌊scrollTop / ROW_HEIGHT⌋ - 5)
  let visibleCount : ℤ := ⌈containerHeight / ROW_HEIGHT⌉ + 10
  let endIndex : ℤ := min (rowCount : ℤ) (startIndex + visibleCount)
  ⟨totalHeight, startIndex, endIndex, (startIndex : ℚ) * ROW_HEIGHT⟩

/-- The `shouldVirtualize` guard of the DataTable. -/
def shouldVirtualize (dataLen virtualizeThreshold : ℕ) (loading : Bool) : Bool :=
  dataLen > virtualizeThreshold && !loading

/-- The full `virtualState` memo including the non-virtualizing `null` branch. -/
def virtualStateMemo (sv : Bool) (rowCount : ℕ) (scrollTop containerHeight : ℚ) :
    Option VirtualWindow :=
  if sv then some (virtualState rowCount scrollTop containerHeight) else none

/-- JS `String(n)` on a natural number: its decimal digit string. -/
def digitChar (n : ℕ) : Char :=
  if n = 0 then '0'
  else if n = 1 then '1'
  else if n = 2 then '2'
  else if n = 3 then '3'
  else if n = 4 then '4'
  else if n = 5 then '5'
  else if n = 6 then '6'
  else if n = 7 then '7'
  else if n = 8 then '8'
  else if n = 9 then '9'
  else '*'

/-- JS `String(index)`: decimal rendering of the index. -/
def jsStringOfNat (n : ℕ) : String :=
  if n = 0 then "0" else ((Nat.digits 10 n).reverse.map digitChar).asString

/-- The `rowKey` prop: absent, a property accessor (`keyof T`, modelled by
the stringified property read), or an explicit key function. -/
inductive RowKeySpec (T : Type) where
  | auto
  | prop (f : T → String)
  | func (f : T → String)

/-- `getRowKey` of the DataTable. `getId` reads the row's `id` property
(`none` when it is `null`/`undefined`), already stringified; the `??`
fallback then substitutes the positional index. -/
def getRowKey {T : Type} (getId : T → Option String) (row : T) (index : ℕ)
    (spec : RowKeySpec T) : String :=
  match spec with
  | .auto =>
    match getId row with
    | some s => s
    | none => jsStringOfNat index
  | .prop f => f row
  | .func f => f row

/-- The keys of all currently displayed rows, in order
(`data.map((row, i) => getRowKey(row, i, rowKey))`). -/
def derivedKeys {T : Type} (getId : T → Option String) (spec : RowKeySpec T)
    (data : List T) : List String :=
  data.enum.map fun p => getRowKey getId p.2 p.1 spec

/-- `isAllSelected` memo of the DataTable (with a selection config present):
false for empty data, otherwise `data.every(...)` over the derived keys. -/
def isAllSelected {T : Type} (getId : T → Option String) (spec : RowKeySpec T)
    (data : List T) (selected : List String) : Bool :=
  if data.isEmpty then false
  else data.enum.all fun p => selected.contains (getRowKey getId p.2 p.1 spec)

/-- `handleSelectAll` of the DataTable (with a selection config present):
the selection list reported to `onSelectionChange`. -/
def handleSelectAll {T : Type} (getId : T → Option String) (spec : RowKeySpec T)
    (data : List T) (selected : List String) : List String :=
  if isAllSelected getId spec data selected then []
  else data.enum.map fun p => getRowKey getId p.2 p.1 spec

/-- Sort direction. -/
inductive SortDir where
  | asc
  | desc
  deriving DecidableEq

/-- The `sorting` prop's state part: current column id and direction. -/
structure SortingState where
  column : String
  direction : SortDir
  deriving DecidableEq

/-- The parts of `ColumnDef` consulted by `handleSort`; the presentation
fields (header, accessor, cell, width, align) are omitted, and a missing
`sortable?` flag is its falsy reading `false`. -/
structure ColumnDef where
  id : String
  sortable : Bool
  deriving DecidableEq

/-- `handleSort` of the DataTable: `none` models the early return (no
`onSort` call, state unchanged); otherwise the `(column, direction)` pair
reported to `onSort`. -/
def handleSort (sorting : Option SortingState) (col : ColumnDef) :
    Option (String × SortDir) :=
  match sorting with
  | none => none
  | some s =>
    if !col.sortable then none
    else some (col.id, if s.column = col.id ∧ s.direction = .asc then .desc else .asc)

/-! ## Helper lemmas -/

theorem digitChar_inj : ∀ a, a < 10 → ∀ b, b < 10 → digitChar a = digitChar b → a = b := by
  decide

theorem map_digitChar_inj : ∀ (l₁ l₂ : List ℕ), (∀ x ∈ l₁, x < 10) → (∀ x ∈ l₂, x < 10) →
    l₁.map digitChar = l₂.map digitChar → l₁ = l₂ := by
  intro l₁
  induction l₁ with
  | nil => intro l₂ _ _ h; cases l₂ <;> simp_all
  | cons a t ih =>
    intro l₂ h1 h2 h
    cases l₂ with
    | nil => simp at h
    | cons b t₂ =>
      simp only [List.map_cons, List.cons.injEq] at h
      have hab : a = b :=
        digitChar_inj a (h1 a (by simp)) b (h2 b (by simp)) h.1
      have ht : t = t₂ :=
        ih t₂ (fun x hx => h1 x (by simp [hx])) (fun x hx => h2 x (by simp [hx])) h.2
      rw [hab, ht]

theorem asString_inj (l₁ l₂ : List Char) (h : l₁.asString = l₂.asString) : l₁ = l₂ := by
  have h2 : ({ data := l₁ } : String) = { data := l₂ } := by simpa [List.asString] using h
  exact congrArg String.data h2

theorem jsStringOfNat_inj : Function.Injective jsStringOfNat := by
  intro a b h
  unfold jsStringOfNat at h
  have digitsLt : ∀ n, ∀ x ∈ Nat.digits 10 n, x < 10 := fun n x hx =>
    Nat.digits_lt_base (by norm_num) hx
  have zeroCase : ∀ n, n ≠ 0 →
      ((Nat.digits 10 n).reverse.map digitChar).asString ≠ "0" := by
    intro n hn hcontra
    have hl : (Nat.digits 10 n).reverse.map digitChar = ['0'] := by
      have := asString_inj _ _ hcontra
      simpa using this
    have hrev : ∃ d, (Nat.digits 10 n).reverse = [d] ∧ digitChar d = '0' := by
      rcases hrev' : (Nat.digits 10 n).reverse with _ | ⟨d, t⟩
      · rw [hrev'] at hl; simp at hl
      · rw [hrev'] at hl
        simp only [List.map_cons, List.cons.injEq] at hl
        cases t with
        | nil => exact ⟨d, rfl, hl.1⟩
        | cons x xs => simp at hl
    obtain ⟨d, hd, hdc⟩ := hrev
    have hdig : Nat.digits 10 n = [d] := by
      have := congrArg List.reverse hd
      simpa using this
    have hdlt : d < 10 := digitsLt n d (by rw [hdig]; simp)
    have hd0 : d = 0 := digitChar_inj d hdlt 0 (by norm_num) (by simpa [digitChar] using hdc)
    have : n = 0 := by
      have h0 := Nat.ofDigits_digits 10 n
      rw [hdig, hd0] at h0
      simpa [Nat.ofDigits] using h0.symm
    exact hn this
  by_cases ha : a = 0 <;> by_cases hb : b = 0
  · rw [ha, hb]
  · rw [if_pos ha, if_neg hb] at h; exact absurd h.symm (zeroCase b hb)
  · rw [if_neg ha, if_pos hb] at h; exact absurd h (zeroCase a ha)
  · rw [if_neg ha, if_neg hb] at h
    have hl := asString_inj _ _ h
    have := map_digitChar_inj _ _ (fun x hx => digitsLt a x (List.mem_reverse.1 hx))
      (fun x hx => digitsLt b x (List.mem_reverse.1 hx)) hl
    have hdig : Nat.digits 10 a = Nat.digits 10 b := by
      have := congrArg List.reverse this
      simpa using this
    exact Nat.digits_inj_iff.1 hdig

theorem validateVitalValue_field_eq (fname : String) (val : Option JsNumber)
    (u : Option String) (e : ValidationError)
    (h : validateVitalValue fname val u = some e) : e.field = fname := by
  cases val with
  | none => simp [validateVitalValue] at h
  | some jn =>
    cases jn with
    | nan => simp [validateVitalValue] at h
    | num q =>
      cases hV : VITAL_RANGES (resolveRangeKey fname u) with
      | none => simp [validateVitalValue, hV] at h
      | some r =>
        simp only [validateVitalValue, hV] at h
        split at h
        · cases Option.some.inj h; rfl
        · simp at h

theorem vitalFieldName_injective :
    ∀ a b : VitalField, vitalFieldName a = vitalFieldName b → a = b := by
  decide

theorem VITAL_RANGES_normal_wf (k : String) (r : RangeSpec)
    (h : VITAL_RANGES k = some r) : ∀ a b, r.normal = some (a, b) → a ≤ b := by
  intro a b hab
  unfold VITAL_RANGES at h
  rcases hf : VITAL_RANGES_entries.find? (fun p => p.1 == k) with _ | p
  · rw [hf] at h; simp at h
  · rw [hf] at h
    simp only [Option.map_some'] at h
    cases Option.some.inj h
    have hmem : p ∈ VITAL_RANGES_entries := List.mem_of_find?_eq_some hf
    have hwf : ∀ q ∈ VITAL_RANGES_entries, ∀ x y, q.2.normal = some (x, y) → x ≤ y := by
      intro q hq x y hxy
      fin_cases hq <;> simp_all <;> (obtain ⟨rfl, rfl⟩ := hxy; norm_num)
    exact hwf p hmem a b hab

/-! ## Claims -/

/-- Claim C6: `getBMICategory` uses strict-less-than thresholds: below 18.5 is
Underweight, `[18.5, 25)` is Normal, `[25, 30)` is Overweight, 30 and above is
Obese; in particular the boundary values 18.5, 25 and 30 fall into the next
(higher) category. -/
theorem getBMICategory_strict_thresholds (bmi : ℚ) :
    (bmi < 18.5 → getBMICategory bmi = "Underweight") ∧
    (18.5 ≤ bmi → bmi < 25 → getBMICategory bmi = "Normal") ∧
    (25 ≤ bmi → bmi < 30 → getBMICategory bmi = "Overweight") ∧
    (30 ≤ bmi → getBMICategory bmi = "Obese") ∧
    getBMICategory 18.5 = "Normal" ∧ getBMICategory 18.49 = "Underweight" ∧
    getBMICategory 24.99 = "Normal" ∧ getBMICategory 25 = "Overweight" ∧
    getBMICategory 29.99 = "Overweight" ∧ getBMICategory 30 = "Obese" := by
  refine ⟨?_, ?_, ?_, ?_, by norm_num [getBMICategory], by norm_num [getBMICategory],
    by norm_num [getBMICategory], by norm_num [getBMICategory], by norm_num [getBMICategory],
    by norm_num [getBMICategory]⟩
  · intro h; simp [getBMICategory, h]
  · intro h1 h2
    simp only [getBMICategory]
    rw [if_neg (not_lt.2 h1), if_pos h2]
  · intro h1 h2
    simp only [getBMICategory]
    rw [if_neg (not_lt.2 (by linarith)), if_neg (not_lt.2 h1), if_pos h2]
  · intro h1
    simp only [getBMICategory]
    rw [if_neg (not_lt.2 (by linarith)), if_neg (not_lt.2 (by linarith)),
      if_neg (not_lt.2 h1)]

theorem getBMICategory_strict_thresholds_witness :
    getBMICategory 17 = "Underweight" ∧ getBMICategory 20 = "Normal" ∧
    getBMICategory 27 = "Overweight" ∧ getBMICategory 31 = "Obese" :=
  ⟨(getBMICategory_strict_thresholds 17).1 (by norm_num),
   (getBMICategory_strict_thresholds 20).2.1 (by norm_num) (by norm_num),
   (getBMICategory_strict_thresholds 27).2.2.1 (by norm_num) (by norm_num),
   (getBMICategory_strict_thresholds 31).2.2.2.1 (by norm_num)⟩

/-- Claim C7: `calculateBMI` returns an explicit empty result (`none`), never
a division error, exactly when weightKg ≤ 0 or heightCm ≤ 0; otherwise it is
weightKg / (heightCm/100)² rounded to one decimal, and
`calculateBMI 70 175 = 22.9`. -/
theorem calculateBMI_spec (w h : ℚ) :
    (calculateBMI w h = none ↔ w ≤ 0 ∨ h ≤ 0) ∧
    (0 < w → 0 < h → calculateBMI w h = some (round1 (w / ((h / 100) * (h / 100))))) ∧
    calculateBMI 70 175 = some 22.9 := by
  refine ⟨?_, ?_, ?_⟩
  · unfold calculateBMI
    split
    · rename_i hc; simpa using hc
    · rename_i hc; simpa using hc
  · intro hw hh
    unfold calculateBMI
    rw [if_neg (by push_neg; exact ⟨hw, hh⟩)]
  · norm_num [calculateBMI, round1, round_eq]

theorem calculateBMI_spec_witness :
    calculateBMI 70 175 = some (round1 (70 / ((175 / 100) * (175 / 100)))) :=
  (calculateBMI_spec 70 175).2.1 (by norm_num) (by norm_num)

/-- Claim C2: `validateVitalValue` returns `none` for absent or NaN values
and for unrecognized resolved field keys, and returns an error carrying the
field name and a message with that field's min/max/unit exactly when the
value lies outside the absolute range `[min, max]`; a value inside the
absolute range raises no error even when it is outside the normal range
(heartRate 300 errors with bounds 30–250; heartRate 110 and 72 return none). -/
theorem validateVitalValue_spec :
    (∀ f u, validateVitalValue f none u = none) ∧
    (∀ f u, validateVitalValue f (some .nan) u = none) ∧
    (∀ f v u, VITAL_RANGES (resolveRangeKey f u) = none →
      validateVitalValue f (some (.num v)) u = none) ∧
    (∀ f v u r, VITAL_RANGES (resolveRangeKey f u) = some r →
      (validateVitalValue f (some (.num v)) u =
          some ⟨f, ⟨f, r.min, r.max, r.unit⟩⟩ ↔ v < r.min ∨ v > r.max) ∧
      (validateVitalValue f (some (.num v)) u = none ↔ r.min ≤ v ∧ v ≤ r.max)) ∧
    validateVitalValue "heartRate" (some (.num 300)) none =
      some ⟨"heartRate", ⟨"heartRate", 30, 250, "bpm"⟩⟩ ∧
    validateVitalValue "heartRate" (some (.num 110)) none = none ∧
    validateVitalValue "heartRate" (some (.num 72)) none = none := by
  refine ⟨fun f u => rfl, fun f u => rfl, ?_, ?_, by decide, by decide, by decide⟩
  · intro f v u h; simp [validateVitalValue, h]
  · intro f v u r h
    have hbody : validateVitalValue f (some (.num v)) u =
        if v < r.min ∨ v > r.max then some ⟨f, ⟨f, r.min, r.max, r.unit⟩⟩ else none := by
      simp only [validateVitalValue, h]
    constructor
    · rw [hbody]
      split
      · rename_i hc; simpa using hc
      · rename_i hc; simpa using hc
    · rw [hbody]
      split
      · rename_i hc
        simp only [reduceCtorEq, false_iff, not_and, not_le]
        intro h1
        rcases hc with hlt | hgt
        · exact absurd h1 (not_le.2 hlt)
        · exact hgt
      · rename_i hc
        push_neg at hc
        simpa using hc

theorem validateVitalValue_spec_witness :
    validateVitalValue "unknownField" (some (.num 5)) none = none ∧
    validateVitalValue "heartRate" (some (.num 110)) none = none :=
  ⟨validateVitalValue_spec.2.2.1 "unknownField" 5 none (by decide),
   (validateVitalValue_spec.2.2.2.1 "heartRate" 110 none ⟨30, 250, some (60, 100), "bpm"⟩
      (by decide)).2.mpr (by norm_num)⟩

/-- Claim C8: `isValueNormal` resolves a unit-qualified range key
(temperature/weight/height are unit-dependent, all other fields are used
as-is) and returns unknown when the resolved key has no normal bounds
(weight, height, or an unrecognized key), low strictly below normalMin,
high strictly above normalMax, and normal otherwise; e.g. heartRate 50 ⇒
low, 72 ⇒ normal, 150 ⇒ high, and weight 500 lb ⇒ unknown. -/
theorem isValueNormal_spec :
    (∀ f u, f ≠ "temperature" → f ≠ "weight" → f ≠ "height" → resolveRangeKey f u = f) ∧
    (∀ f v u, VITAL_RANGES (resolveRangeKey f u) = none → isValueNormal f v u = .unknown) ∧
    (∀ f v u r, VITAL_RANGES (resolveRangeKey f u) = some r → r.normal = none →
      isValueNormal f v u = .unknown) ∧
    (∀ f v u r a b, VITAL_RANGES (resolveRangeKey f u) = some r → r.normal = some (a, b) →
      ((v < a → isValueNormal f v u = .low) ∧
       (a ≤ v → v ≤ b → isValueNormal f v u = .normal) ∧
       (b < v → isValueNormal f v u = .high))) ∧
    isValueNormal "heartRate" 50 none = .low ∧
    isValueNormal "heartRate" 72 none = .normal ∧
    isValueNormal "heartRate" 150 none = .high ∧
    isValueNormal "weight" 500 (some "lb") = .unknown := by
  refine ⟨?_, ?_, ?_, ?_, by decide, by decide, by decide, by decide⟩
  · intro f u h1 h2 h3; simp [resolveRangeKey, h1, h2, h3]
  · intro f v u h; simp [isValueNormal, h]
  · intro f v u r h hn; simp [isValueNormal, h, hn]
  · intro f v u r a b h hn
    have hab : a ≤ b := VITAL_RANGES_normal_wf _ _ h a b hn
    refine ⟨?_, ?_, ?_⟩
    · intro hv; simp [isValueNormal, h, hn, hv]
    · intro h1 h2
      simp only [isValueNormal, h, hn]
      rw [if_neg (not_lt.2 h1), if_neg (not_lt.2 h2)]
    · intro hv
      simp only [isValueNormal, h, hn]
      rw [if_neg (not_lt.2 (by linarith)), if_pos (by exact hv)]

theorem isValueNormal_spec_witness :
    resolveRangeKey "heartRate" none = "heartRate" ∧
    isValueNormal "unknownField" 1 none = .unknown ∧
    isValueNormal "weight" 500 (some "lb") = .unknown ∧
    isValueNormal "heartRate" 72 none = .normal :=
  ⟨isValueNormal_spec.1 "heartRate" none (by decide) (by decide) (by decide),
   isValueNormal_spec.2.1 "unknownField" 1 none (by decide),
   isValueNormal_spec.2.2.1 "weight" 500 (some "lb") ⟨1, 1000, none, "lb"⟩ (by decide) rfl,
   (isValueNormal_spec.2.2.2.1 "heartRate" 72 none ⟨30, 250, some (60, 100), "bpm"⟩ 60 100
      (by decide) rfl).2.1 (by norm_num) (by norm_num)⟩

/-- Claim C9 (counterexample): the round-trip bound fails for a general
rational in [95, 105]: at x = 95.28 the double conversion yields 95.4,
an error of 0.12 > 0.1. -/
theorem convertTemperature_roundTrip_counterexample :
    (95 ≤ (95.28 : ℚ) ∧ (95.28 : ℚ) ≤ 105) ∧
    ¬ (|convertTemperature (convertTemperature 95.28 .F) .C - 95.28| ≤ 0.1) := by
  constructor
  · constructor <;> norm_num
  · norm_num [convertTemperature, round1, round_eq, abs]

/-- Claim C9 (amended): for every x in [95, 105] that is an exact one-decimal
reading (x = k/10 for an integer k), converting F→C and back C→F (each step
rounded to 1 decimal) lands within 0.1 of x. -/
theorem convertTemperature_roundTrip_tenths (x : ℚ) (hx1 : 95 ≤ x) (hx2 : x ≤ 105)
    (k : ℤ) (hk : x = k / 10) :
    |convertTemperature (convertTemperature x .F) .C - x| ≤ 0.1 := by
  subst hk
  show |round1 ((round1 (((k:ℚ)/10 - 32) * (5/9))) * (9/5) + 32) - (k:ℚ)/10| ≤ 0.1
  unfold round1
  have h1 : (10:ℚ) * (((k:ℚ)/10 - 32) * (5 / 9)) = ((k:ℚ) - 320) * (5 / 9) := by ring
  rw [h1]
  obtain ⟨m, hm⟩ : ∃ m : ℤ, round (((k:ℚ) - 320) * (5/9)) = m := ⟨_, rfl⟩
  rw [hm]
  have e1 : |(((k:ℚ) - 320) * (5/9)) - m| ≤ 1/2 := by
    have := abs_sub_round (((k:ℚ) - 320) * (5/9))
    rwa [hm] at this
  have h2 : (10:ℚ) * ((m:ℚ)/10 * (9/5) + 32) = (m:ℚ) * (9/5) + (320:ℤ) := by push_cast; ring
  rw [h2, round_add_int]
  obtain ⟨p, hp⟩ : ∃ p : ℤ, round ((m:ℚ) * (9/5)) = p := ⟨_, rfl⟩
  rw [hp]
  have e2 : |((m:ℚ) * (9/5)) - p| ≤ 1/2 := by
    have := abs_sub_round ((m:ℚ) * (9/5))
    rwa [hp] at this
  have e3 : |((p:ℚ) + 320) - k| ≤ 7/5 := by
    have hdecomp : ((p:ℚ) + 320) - k =
        (((p:ℚ)) - (m:ℚ)*(9/5)) + ((9/5) * ((m:ℚ) - ((k:ℚ)-320)*(5/9))) := by ring
    rw [hdecomp]
    calc |(((p:ℚ)) - (m:ℚ)*(9/5)) + ((9/5) * ((m:ℚ) - ((k:ℚ)-320)*(5/9)))|
        ≤ |((p:ℚ)) - (m:ℚ)*(9/5)| + |(9/5) * ((m:ℚ) - ((k:ℚ)-320)*(5/9))| := abs_add _ _
      _ = |((m:ℚ) * (9/5)) - p| + (9/5) * |((((k:ℚ) - 320) * (5/9)) - m)| := by
          rw [abs_mul, abs_sub_comm ((m:ℚ)) (((k:ℚ)-320)*(5/9))]
          rw [abs_sub_comm ((p:ℚ)) ((m:ℚ)*(9/5))]
          norm_num
      _ ≤ 1/2 + (9/5) * (1/2) := by
          have : (9:ℚ)/5 * |((((k:ℚ) - 320) * (5/9)) - m)| ≤ (9/5) * (1/2) := by
            apply mul_le_mul_of_nonneg_left e1
            norm_num
          linarith
      _ ≤ 7/5 := by norm_num
  have hint : ((p:ℚ) + 320) - k = ((p + 320 - k : ℤ) : ℚ) := by push_cast; ring
  rw [hint] at e3
  rw [← Int.cast_abs] at e3
  have habs : |p + 320 - k| ≤ (1:ℤ) := by
    by_contra hcon
    push_neg at hcon
    have h2i : (2:ℤ) ≤ |p + 320 - k| := by linarith
    have h2q : (2:ℚ) ≤ ((|p + 320 - k| : ℤ) : ℚ) := by exact_mod_cast h2i
    linarith
  have hfinal : ((p + 320 : ℤ) : ℚ)/10 - (k:ℚ)/10 = ((p + 320 - k : ℤ) : ℚ)/10 := by
    push_cast; ring
  rw [hfinal]
  rw [abs_div]
  have h10 : |(10:ℚ)| = 10 := by norm_num
  rw [h10]
  rw [← Int.cast_abs]
  have hle : ((|p + 320 - k| : ℤ) : ℚ) ≤ 1 := by exact_mod_cast habs
  rw [show (0.1:ℚ) = 1/10 by norm_num]
  linarith

theorem convertTemperature_roundTrip_tenths_witness :
    |convertTemperature (convertTemperature 100 .F) .C - 100| ≤ 0.1 :=
  convertTemperature_roundTrip_tenths 100 (by norm_num) (by norm_num) 1000 (by norm_num)

/-- Claim C1 (counterexample): with the scroll offset unconstrained above,
the window invariant fails: at rowCount = 101, scrollOffset = 41000 and
viewportHeight = 600 the computed startIndex (995) exceeds the computed
endIndex (101). -/
theorem virtualWindow_invariant_counterexample :
    (0 ≤ (41000 : ℚ) ∧ 0 < (600 : ℚ)) ∧
    ¬ ((virtualState 101 41000 600).startIndex ≤ (virtualState 101 41000 600).endIndex) := by
  constructor
  · constructor <;> norm_num
  · norm_num [virtualState, ROW_HEIGHT]

/-- Claim C1 (amended): for every rowCount, every scrollOffset with
0 ≤ scrollOffset ≤ rowCount × rowHeight (the scrollable content extent, as
enforced by the browser) and every viewportHeight > 0, the recomputed
window satisfies 0 ≤ startIndex ≤ endIndex ≤ rowCount and
leadingOffset = startIndex × rowHeight. -/
theorem virtualWindow_invariant (rowCount : ℕ) (scrollTop containerHeight : ℚ)
    (hs : 0 ≤ scrollTop) (hscroll : scrollTop ≤ rowCount * ROW_HEIGHT)
    (hc : 0 < containerHeight) :
    0 ≤ (virtualState rowCount scrollTop containerHeight).startIndex ∧
    (virtualState rowCount scrollTop containerHeight).startIndex ≤
      (virtualState rowCount scrollTop containerHeight).endIndex ∧
    (virtualState rowCount scrollTop containerHeight).endIndex ≤ rowCount ∧
    (virtualState rowCount scrollTop containerHeight).offsetY =
      ((virtualState rowCount scrollTop containerHeight).startIndex : ℚ) * ROW_HEIGHT := by
  have hstart_nonneg : (0:ℤ) ≤ max 0 (⌊scrollTop / ROW_HEIGHT⌋ - 5) := le_max_left _ _
  have hfloor_le : ⌊scrollTop / ROW_HEIGHT⌋ ≤ (rowCount : ℤ) := by
    have hdiv : scrollTop / ROW_HEIGHT ≤ (rowCount : ℚ) := by
      rw [div_le_iff₀ (by norm_num [ROW_HEIGHT])]
      exact hscroll
    calc ⌊scrollTop / ROW_HEIGHT⌋ ≤ ⌊(rowCount : ℚ)⌋ := Int.floor_le_floor hdiv
      _ = (rowCount : ℤ) := by exact_mod_cast Int.floor_intCast (rowCount : ℤ)
  have hstart_le : max 0 (⌊scrollTop / ROW_HEIGHT⌋ - 5) ≤ (rowCount : ℤ) := by
    apply max_le
    · exact_mod_cast Nat.zero_le rowCount
    · omega
  have hvc_nonneg : (0:ℤ) ≤ ⌈containerHeight / ROW_HEIGHT⌉ + 10 := by
    have : (0:ℤ) ≤ ⌈containerHeight / ROW_HEIGHT⌉ :=
      Int.ceil_nonneg (le_of_lt (div_pos hc (by norm_num [ROW_HEIGHT])))
    omega
  refine ⟨hstart_nonneg, ?_, ?_, rfl⟩
  · show max 0 (⌊scrollTop / ROW_HEIGHT⌋ - 5) ≤
      min (rowCount : ℤ)
        (max 0 (⌊scrollTop / ROW_HEIGHT⌋ - 5) + (⌈containerHeight / ROW_HEIGHT⌉ + 10))
    exact le_min hstart_le (by omega)
  · exact min_le_left _ _

theorem virtualWindow_invariant_witness :
    0 ≤ (virtualState 200 1000 600).startIndex ∧
    (virtualState 200 1000 600).startIndex ≤ (virtualState 200 1000 600).endIndex ∧
    (virtualState 200 1000 600).endIndex ≤ 200 ∧
    (virtualState 200 1000 600).offsetY =
      ((virtualState 200 1000 600).startIndex : ℚ) * ROW_HEIGHT :=
  virtualWindow_invariant 200 1000 600 (by norm_num) (by norm_num [ROW_HEIGHT]) (by norm_num)

/-- Claim C5: `handleSort` next-state: a non-sortable column is a no-op; a
click on the currently-ascending column yields (c, desc); every other case
(different column, same column currently desc, or no prior sorted column)
yields (c, asc), so a never-before-sorted column starts ascending and a
third click returns to ascending. -/
theorem handleSort_next_state (s : SortingState) (col : ColumnDef) :
    (col.sortable = false → handleSort (some s) col = none) ∧
    (col.sortable = true → s.column = col.id → s.direction = .asc →
      handleSort (some s) col = some (col.id, .desc)) ∧
    (col.sortable = true → (s.column ≠ col.id ∨ s.direction = .desc) →
      handleSort (some s) col = some (col.id, .asc)) ∧
    handleSort (some ⟨"", .asc⟩) ⟨"age", true⟩ = some ("age", .asc) ∧
    handleSort (some ⟨"age", .asc⟩) ⟨"age", true⟩ = some ("age", .desc) ∧
    handleSort (some ⟨"age", .desc⟩) ⟨"name", true⟩ = some ("name", .asc) ∧
    handleSort (some ⟨"age", .desc⟩) ⟨"age", true⟩ = some ("age", .asc) := by
  refine ⟨?_, ?_, ?_, by decide, by decide, by decide, by decide⟩
  · intro h; simp [handleSort, h]
  · intro h hcol hdir; simp [handleSort, h, hcol, hdir]
  · intro h hother
    have hcond : ¬(s.column = col.id ∧ s.direction = SortDir.asc) := by
      rcases hother with h1 | h1
      · exact fun hc => h1 hc.1
      · rintro ⟨-, hd⟩
        rw [h1] at hd
        cases hd
    simp [handleSort, h, hcond]

theorem handleSort_next_state_witness :
    handleSort (some ⟨"age", .asc⟩) ⟨"height", false⟩ = none ∧
    handleSort (some ⟨"age", .asc⟩) ⟨"age", true⟩ = some ("age", .desc) ∧
    handleSort (some ⟨"age", .desc⟩) ⟨"age", true⟩ = some ("age", .asc) :=
  ⟨(handleSort_next_state ⟨"age", .asc⟩ ⟨"height", false⟩).1 rfl,
   (handleSort_next_state ⟨"age", .asc⟩ ⟨"age", true⟩).2.1 rfl rfl rfl,
   (handleSort_next_state ⟨"age", .desc⟩ ⟨"age", true⟩).2.2.1 rfl (Or.inr rfl)⟩

/-- Claim C4: the select-all toggle: if every currently displayed row's key
is already in the selected set the result is the empty selection, otherwise
it is exactly the list of all displayed rows' keys, replacing the prior
selection. -/
theorem handleSelectAll_toggle {T : Type} (getId : T → Option String) (spec : RowKeySpec T)
    (data : List T) (selected : List String) :
    ((∀ k ∈ derivedKeys getId spec data, k ∈ selected) →
      handleSelectAll getId spec data selected = []) ∧
    ((¬ ∀ k ∈ derivedKeys getId spec data, k ∈ selected) →
      handleSelectAll getId spec data selected = derivedKeys getId spec data) := by
  by_cases hemp : data = []
  · subst hemp
    constructor
    · intro _; simp [handleSelectAll, isAllSelected]
    · intro hno
      exact absurd (by simp [derivedKeys]) hno
  · have hA : isAllSelected getId spec data selected =
        data.enum.all fun p => selected.contains (getRowKey getId p.2 p.1 spec) := by
      simp [isAllSelected, List.isEmpty_iff, hemp]
    have hall_iff :
        (data.enum.all fun p => selected.contains (getRowKey getId p.2 p.1 spec)) = true ↔
          ∀ k ∈ derivedKeys getId spec data, k ∈ selected := by
      rw [List.all_eq_true]
      unfold derivedKeys
      constructor
      · intro h k hk
        rw [List.mem_map] at hk
        obtain ⟨p, hp, rfl⟩ := hk
        simpa using h p hp
      · intro h p hp
        simpa using h _ (List.mem_map.2 ⟨p, hp, rfl⟩)
    constructor
    · intro hall
      unfold handleSelectAll
      rw [if_pos (hA.trans (hall_iff.2 hall))]
    · intro hno
      have hfalse : ¬ (isAllSelected getId spec data selected = true) := by
        intro hc
        rw [hA] at hc
        exact hno (hall_iff.1 hc)
      unfold handleSelectAll
      rw [if_neg hfalse]
      rfl

theorem handleSelectAll_toggle_witness :
    handleSelectAll (fun _ : ℕ => none) (.func fun _ => "a") [5, 6]
      (derivedKeys (fun _ : ℕ => none) (.func fun _ => "a") [5, 6]) = [] ∧
    handleSelectAll (fun _ : ℕ => none) (.func fun _ => "a") [5, 6] [] =
      derivedKeys (fun _ : ℕ => none) (.func fun _ => "a") [5, 6] :=
  ⟨(handleSelectAll_toggle (fun _ : ℕ => none) (.func fun _ => "a") [5, 6] _).1
      (fun k hk => hk),
   (handleSelectAll_toggle (fun _ : ℕ => none) (.func fun _ => "a") [5, 6] []).2
      (by intro hall; exact absurd (hall "a" (by simp [derivedKeys, getRowKey])) (by simp))⟩

/-- Claim C3: a stored value of exactly zero is treated as unset: the
validation effect reports no ValidationError for that field and the
abnormal indicator is absent, regardless of the field's ranges. -/
theorem zero_value_is_unset (v : VitalSigns) (f : VitalField)
    (h : vitalValue v f = 0) :
    (∀ e ∈ runValidation v, e.field ≠ vitalFieldName f) ∧
    getAbnormalIndicator v f = none := by
  constructor
  · intro e he
    rw [runValidation, List.mem_filterMap] at he
    obtain ⟨f', _, hsome⟩ := he
    by_cases hz : vitalValue v f' = 0
    · rw [if_pos hz] at hsome
      exact absurd hsome (by simp)
    · rw [if_neg hz] at hsome
      have hf := validateVitalValue_field_eq _ _ _ _ hsome
      intro hcontra
      rw [hf] at hcontra
      have hff : f' = f := vitalFieldName_injective _ _ hcontra
      rw [hff] at hz
      exact hz h
  · rw [getAbnormalIndicator, if_pos h]

theorem zero_value_is_unset_witness :
    (∀ e ∈ runValidation DEFAULT_VITALS, e.field ≠ vitalFieldName .heartRate) ∧
    getAbnormalIndicator DEFAULT_VITALS .heartRate = none :=
  zero_value_is_unset DEFAULT_VITALS .heartRate rfl

/-- Claim C10: with no rowKey accessor configured and a row whose id
property is null/undefined, the derived key is the positional index
converted to a string; two such rows at distinct positions always receive
distinct keys (so a row's key changes when its position changes). -/
theorem getRowKey_index_fallback {T : Type} (getId : T → Option String)
    (row row' : T) (i j : ℕ) (hi : getId row = none) (hj : getId row' = none)
    (hij : i ≠ j) :
    getRowKey getId row i .auto = jsStringOfNat i ∧
    getRowKey getId row i .auto ≠ getRowKey getId row' j .auto := by
  constructor
  · unfold getRowKey
    rw [hi]
  · unfold getRowKey
    rw [hi, hj]
    intro hc
    exact hij (jsStringOfNat_inj hc)

theorem getRowKey_index_fallback_witness :
    getRowKey (fun _ : ℕ => none) 7 0 .auto = jsStringOfNat 0 ∧
    getRowKey (fun _ : ℕ => none) 7 0 .auto ≠ getRowKey (fun _ : ℕ => none) 7 1 .auto :=
  getRowKey_index_fallback (fun _ : ℕ => none) 7 7 0 1 rfl rfl (by decide)
